import Mathlib

/-!
Verification of the pool-genesis decoder (`newRaydiumLpService.js`) and the
price-triggered watcher (`sniper.js`) of the BOT_V9.5 repository, as a shallow
embedding in Lean 4.  Byte buffers are `List Nat` (one entry per byte), mints
and vault addresses are `String`, on-chain big integers are `Nat`, and the
JavaScript floating-point arithmetic of the watcher is modelled over `ℚ`.
-/

namespace BotV95

/-- The wrapped-native (WSOL) mint constant, `WSOL_MINT` in both source files. -/
def WSOL_MINT : String := "So11111111111111111111111111111111111111112"

/- ### Genesis instruction payload decoding (`parseInit2`) -/

/-- `buf.readBigUInt64LE(off)`: the little-endian unsigned 64-bit integer formed
by bytes `off .. off+7` of the buffer.  Node reads the eight bytes with the
least-significant byte first; folding the reversed window with
`acc * 256 + b` reproduces that value. -/
def readBigUInt64LE (buf : List Nat) (off : Nat) : Nat :=
  (((buf.drop off).take 8).reverse).foldl (fun acc b => acc * 256 + b) 0

/-- Result of `parseInit2`: the two u64 amounts of the initialize2 payload
(the source stringifies them; we keep the numeric values). -/
structure Init2Params where
  initPcAmount : Nat
  initCoinAmount : Nat
  deriving Repr, DecidableEq

/-- `parseInit2(buf)` from `newRaydiumLpService.js`:
`initPcAmount = buf.readBigUInt64LE(10)`, `initCoinAmount = buf.readBigUInt64LE(18)`.
`readBigUInt64LE(18)` throws `ERR_OUT_OF_RANGE` when the buffer is shorter than
26 bytes, so the fallible read is an `Option`. -/
def parseInit2 (buf : List Nat) : Option Init2Params :=
  if buf.length < 26 then none
  else some { initPcAmount := readBigUInt64LE buf 10
              initCoinAmount := readBigUInt64LE buf 18 }

/-- Spec-side description of a little-endian u64 field: the byte at offset
`off + i` carries weight `256 ^ i`, for `i < 8`.  Used to compare `parseInit2`
against the spec's wording about offsets `[10,18)` and `[18,26)`. -/
def leU64At (buf : List Nat) (off : Nat) : Nat :=
  ∑ i ∈ Finset.range 8, buf.getD (off + i) 0 * 256 ^ i

/-- Little-endian valuation of a byte list, least-significant byte first. -/
def evalLE (l : List Nat) : Nat :=
  l.foldr (fun b acc => b + 256 * acc) 0

theorem foldl_reverse_evalLE (l : List Nat) (a : Nat) :
    l.reverse.foldl (fun x y => x * 256 + y) a = a * 256 ^ l.length + evalLE l := by
  induction l generalizing a with
  | nil => simp [evalLE]
  | cons c t ih =>
      rw [List.reverse_cons, List.foldl_append]
      simp only [List.foldl_cons, List.foldl_nil]
      rw [ih]
      show (a * 256 ^ t.length + evalLE t) * 256 + c = a * 256 ^ (c :: t).length + evalLE (c :: t)
      simp only [evalLE, List.foldr_cons, List.length_cons, pow_succ]
      ring

theorem evalLE_eq_sum (l : List Nat) :
    evalLE l = ∑ i ∈ Finset.range l.length, l.getD i 0 * 256 ^ i := by
  induction l with
  | nil => simp [evalLE]
  | cons c t ih =>
      rw [List.length_cons, Finset.sum_range_succ']
      simp only [List.getD_cons_succ, List.getD_cons_zero, pow_zero, mul_one]
      have h : ∀ i ∈ Finset.range t.length,
          t.getD i 0 * 256 ^ (i + 1) = 256 * (t.getD i 0 * 256 ^ i) := fun i _ => by ring
      rw [Finset.sum_congr rfl h, ← Finset.mul_sum]
      rw [evalLE, List.foldr_cons, ← evalLE, ih]
      ring

theorem getD_take_drop (buf : List Nat) (off i : Nat) (hi : i < 8) :
    ((buf.drop off).take 8).getD i 0 = buf.getD (off + i) 0 := by
  simp only [List.getD_eq_getElem?_getD]
  rw [List.getElem?_take_of_lt hi, List.getElem?_drop]

theorem length_take_drop (buf : List Nat) (off : Nat) (h : off + 8 ≤ buf.length) :
    ((buf.drop off).take 8).length = 8 := by
  rw [List.length_take, List.length_drop]
  omega

theorem readBigUInt64LE_eq_leU64At (buf : List Nat) (off : Nat)
    (h : off + 8 ≤ buf.length) :
    readBigUInt64LE buf off = leU64At buf off := by
  rw [readBigUInt64LE, leU64At, foldl_reverse_evalLE, evalLE_eq_sum,
    length_take_drop buf off h]
  simp only [zero_mul, zero_add]
  refine Finset.sum_congr rfl fun i hi => ?_
  rw [getD_take_drop buf off i (Finset.mem_range.mp hi)]

/-- A concrete 26-byte initialize2 payload: byte 10 is 1, byte 18 is 2, all
other bytes are 0, so the little-endian u64 at `[10,18)` is 1 and the one at
`[18,26)` is 2. -/
def init2DemoBuf : List Nat :=
  [0, 0, 0, 0, 0, 0, 0, 0, 0, 0,
   1, 0, 0, 0, 0, 0, 0, 0,
   2, 0, 0, 0, 0, 0, 0, 0]

/-- C3 (counterexample): on `init2DemoBuf` the decoder's `initCoinAmount` is the
little-endian u64 at offsets `[18,26)` (namely 2), not the one at `[10,18)`
(namely 1) as the claim states: offset 10 feeds `initPcAmount` instead. -/
theorem parseInit2_coin_not_at_offset_10 :
    (parseInit2 init2DemoBuf).map Init2Params.initCoinAmount ≠ some (leU64At init2DemoBuf 10)
      ∧ (parseInit2 init2DemoBuf).map Init2Params.initCoinAmount = some 2
      ∧ leU64At init2DemoBuf 10 = 1 := by
  refine ⟨?_, by decide, by decide⟩
  decide

/-- C3 (amended): for every genesis instruction payload of at least 26 bytes,
the decoder returns `initPcAmount` equal to the little-endian unsigned 64-bit
integer at byte offsets `[10,18)` and `initCoinAmount` equal to the
little-endian unsigned 64-bit integer at byte offsets `[18,26)`. -/
theorem parseInit2_le_fields (buf : List Nat) (h : 26 ≤ buf.length) :
    parseInit2 buf
      = some { initPcAmount := leU64At buf 10, initCoinAmount := leU64At buf 18 } := by
  rw [parseInit2, if_neg (by omega),
    readBigUInt64LE_eq_leU64At buf 10 (by omega),
    readBigUInt64LE_eq_leU64At buf 18 (by omega)]

/-- C3 (witness): the amended theorem applied to the concrete 26-byte payload. -/
theorem parseInit2_le_fields_witness :
    26 ≤ init2DemoBuf.length
      ∧ parseInit2 init2DemoBuf
          = some { initPcAmount := leU64At init2DemoBuf 10
                   initCoinAmount := leU64At init2DemoBuf 18 } :=
  ⟨by decide, parseInit2_le_fields init2DemoBuf (by decide)⟩

/- ### Base/quote canonicalization (`processRaydiumLpTransaction`, flip block) -/

/-- The pair-oriented fields the flip block touches: base/quote mint, base/quote
vault, and the two raw initial amounts (`initBase` = coin side, `initQuote` =
pc side before any flip). -/
structure PairFields where
  baseMint : String
  quoteMint : String
  baseVault : String
  quoteVault : String
  initBase : Nat
  initQuote : Nat
  deriving Repr, DecidableEq

/-- The pairwise destructuring swap of the flip block:
`[baseMint, quoteMint] = [quoteMint, baseMint]`,
`[baseVault, quoteVault] = [quoteVault, baseVault]`,
`[initBase, initQuote] = [initQuote, initBase]`. -/
def swapPair (r : PairFields) : PairFields :=
  { baseMint := r.quoteMint
    quoteMint := r.baseMint
    baseVault := r.quoteVault
    quoteVault := r.baseVault
    initBase := r.initQuote
    initQuote := r.initBase }

/-- The guarded flip: `if (baseMint === WSOL_MINT) { ...swap... }`. -/
def canonicalize (r : PairFields) : PairFields :=
  if r.baseMint = WSOL_MINT then swapPair r else r

/-- C6: canonicalization swaps the (mint, vault, initial-amount) triples if and
only if the raw base mint is the WSOL constant; the underlying swap is an
involution (applying it twice is the identity); and when the flip fires, the
canonical quote mint is the original raw base mint and vice versa. -/
theorem canonicalize_spec :
    (∀ r : PairFields, swapPair (swapPair r) = r)
    ∧ (∀ r : PairFields, r.baseMint = WSOL_MINT → canonicalize r = swapPair r)
    ∧ (∀ r : PairFields, r.baseMint ≠ WSOL_MINT → canonicalize r = r)
    ∧ (∀ r : PairFields, r.baseMint = WSOL_MINT →
        (canonicalize r).quoteMint = r.baseMint ∧ (canonicalize r).baseMint = r.quoteMint) := by
  refine ⟨fun r => rfl, fun r h => if_pos h, fun r h => if_neg h, fun r h => ?_⟩
  rw [canonicalize, if_pos h]
  exact ⟨rfl, rfl⟩

/-- A raw record whose coin side is WSOL, so the flip fires. -/
def wsolSidePair : PairFields :=
  { baseMint := WSOL_MINT, quoteMint := "TokenMintAAAA", baseVault := "VaultAAAA",
    quoteVault := "VaultBBBB", initBase := 50000000000, initQuote := 1000000000 }

/-- A raw record whose coin side is not WSOL, so the flip does not fire. -/
def plainSidePair : PairFields :=
  { baseMint := "TokenMintCCCC", quoteMint := WSOL_MINT, baseVault := "VaultCCCC",
    quoteVault := "VaultDDDD", initBase := 7, initQuote := 3 }

/-- C6 (witness): the canonicalization facts applied to the two concrete
records above. -/
theorem canonicalize_spec_witness :
    canonicalize wsolSidePair = swapPair wsolSidePair
      ∧ canonicalize plainSidePair = plainSidePair
      ∧ (canonicalize wsolSidePair).quoteMint = wsolSidePair.baseMint
      ∧ (canonicalize wsolSidePair).baseMint = wsolSidePair.quoteMint :=
  ⟨canonicalize_spec.2.1 wsolSidePair rfl,
   canonicalize_spec.2.2.1 plainSidePair (by decide),
   (canonicalize_spec.2.2.2 wsolSidePair rfl).1,
   (canonicalize_spec.2.2.2 wsolSidePair rfl).2⟩

/- ### Constant-product invariant K (`processRaydiumLpTransaction`) -/

/-- `Khuman = (BigInt(initQuote) * BigInt(initBase)) / 10n ** BigInt(quoteDecimals + baseDecimals)`.
BigInt division truncates; on non-negative operands that is floor division,
which is exactly `Nat` division. -/
def Khuman (initQuote initBase quoteDecimals baseDecimals : Nat) : Nat :=
  (initQuote * initBase) / 10 ^ (quoteDecimals + baseDecimals)

/-- C5: for all u64 raw reserves and decimal exponents up to 18, the persisted
K is exactly the floor of the exact rational `initQuote * initBase / 10^(qd+bd)`,
equivalently the unique integer with `K * 10^(qd+bd) ≤ initQuote * initBase <
(K+1) * 10^(qd+bd)` — pure integer arithmetic, no floating point. -/
theorem Khuman_eq_floor (initQuote initBase quoteDecimals baseDecimals : Nat)
    (hq : initQuote < 2 ^ 64) (hb : initBase < 2 ^ 64)
    (hqd : quoteDecimals ≤ 18) (hbd : baseDecimals ≤ 18) :
    Khuman initQuote initBase quoteDecimals baseDecimals
        = ⌊(((initQuote * initBase : Nat)) : ℚ) / (10 : ℚ) ^ (quoteDecimals + baseDecimals)⌋₊
      ∧ Khuman initQuote initBase quoteDecimals baseDecimals
          * 10 ^ (quoteDecimals + baseDecimals) ≤ initQuote * initBase
      ∧ initQuote * initBase
          < (Khuman initQuote initBase quoteDecimals baseDecimals + 1)
              * 10 ^ (quoteDecimals + baseDecimals) := by
  refine ⟨?_, Nat.div_mul_le_self _ _, ?_⟩
  · rw [Khuman,
      show ((10 : ℚ) ^ (quoteDecimals + baseDecimals))
          = ((10 ^ (quoteDecimals + baseDecimals) : Nat) : ℚ) by push_cast; ring]
    rw [Nat.floor_div_eq_div]
  · have hd : 0 < 10 ^ (quoteDecimals + baseDecimals) := by positivity
    have h2 := Nat.lt_mul_div_succ (initQuote * initBase) hd
    rw [Khuman]
    simpa [Nat.mul_comm] using h2

/-- C5 (witness): the spec's own worked example, `initQuote = 50_000_000_000`,
`initBase = 1_000_000_000`, both decimals 9 (so `K = 50`). -/
theorem Khuman_eq_floor_witness :
    Khuman 50000000000 1000000000 9 9
        = ⌊(((50000000000 * 1000000000 : Nat)) : ℚ) / (10 : ℚ) ^ (9 + 9)⌋₊
      ∧ Khuman 50000000000 1000000000 9 9 * 10 ^ (9 + 9) ≤ 50000000000 * 1000000000
      ∧ 50000000000 * 1000000000 < (Khuman 50000000000 1000000000 9 9 + 1) * 10 ^ (9 + 9) :=
  Khuman_eq_floor 50000000000 1000000000 9 9 (by norm_num) (by norm_num)
    (by norm_num) (by norm_num)

/- ### Market side-accounts (`processRaydiumLpTransaction`, serum block) -/

/-- The three 32-byte public keys extracted from the market account. -/
structure MarketSide where
  marketEventQueue : List Nat
  marketBids : List Nat
  marketAsks : List Nat
  deriving Repr, DecidableEq

/-- `d.subarray(245, 277)`, `d.subarray(277, 309)`, `d.subarray(309, 341)`
from the market account data. -/
def extractMarketSide (d : List Nat) : MarketSide :=
  { marketEventQueue := (d.drop 245).take 32
    marketBids := (d.drop 277).take 32
    marketAsks := (d.drop 309).take 32 }

/-- The tail of `processRaydiumLpTransaction` from the market-account fetch to
the mongo insert, generic over the record built so far (`pre`) and the pure
field assignments between the market extraction and the insert (`attach`):
`if (!mAcc || mAcc.data.length < 341) return null;`, then
`Object.assign(td, ...extracted keys...)`, further pure assignments, and
finally `insertOne(td)`.  The result pairs the function's return value with
the list of documents inserted into the store. -/
def marketStageAndPersist {α : Type} (pre : α) (attach : α → MarketSide → α)
    (mAcc : Option (List Nat)) : Option α × List α :=
  match mAcc with
  | none => (none, [])
  | some d =>
      if d.length < 341 then (none, [])
      else
        let td := attach pre (extractMarketSide d)
        (some td, [td])

/-- C7: a fetched market account that is absent or shorter than 341 bytes makes
the pipeline return "no record" and persist nothing, and a record is produced
(hence side-accounts extracted) only when the account is at least 341 bytes. -/
theorem marketStage_guard {α : Type} (pre : α) (attach : α → MarketSide → α) :
    (∀ mAcc : Option (List Nat), (∀ d, mAcc = some d → d.length < 341) →
        marketStageAndPersist pre attach mAcc = (none, []))
    ∧ (∀ d : List Nat,
        (marketStageAndPersist pre attach (some d)).1.isSome = true → 341 ≤ d.length) := by
  constructor
  · intro mAcc h
    cases mAcc with
    | none => rfl
    | some d => simp [marketStageAndPersist, h d rfl]
  · intro d hs
    rw [marketStageAndPersist] at hs
    by_cases hlen : d.length < 341
    · rw [if_pos hlen] at hs
      simp at hs
    · omega

/-- C7 (witness): a concrete 340-byte market account yields no record and no
persisted document. -/
theorem marketStage_guard_witness :
    marketStageAndPersist (0 : Nat) (fun p _ => p) (some (List.replicate 340 0)) = (none, []) :=
  (marketStage_guard (0 : Nat) (fun p _ => p)).1 (some (List.replicate 340 0))
    (by intro d h; cases h; rw [List.length_replicate]; omega)

/- ### Pool-state default substitution (`processRaydiumLpTransaction`, SDK v2 block) -/

/-- JavaScript `Number(v) || dflt` on a decoded numeric field: `none` models an
absent field (`Number(undefined)` is `NaN`, which is falsy) and a decoded 0 is
falsy as well, so both fall back to the default. -/
def jsNumOr (v : Option Int) (dflt : Int) : Int :=
  match v with
  | none => dflt
  | some x => if x = 0 then dflt else x

/-- JavaScript `v ? v.toString() : dflt` on a decoded big-number field: the
decoded value is a BN object, which is truthy even when it wraps 0, so only an
absent field falls back to the default. -/
def jsObjOr (v : Option Nat) (dflt : Nat) : Nat :=
  match v with
  | none => dflt
  | some x => x

/-- The descriptive fields of the decoded pool account
(`liquidityStateV4Layout.decode`) consumed by the SDK-v2 compatibility block;
`none` models a field the decode did not produce. -/
structure PoolDecoded where
  swapFeeNumerator : Option Int
  swapFeeDenominator : Option Int
  ownerTradeFeeNumerator : Option Int
  ownerTradeFeeDenominator : Option Int
  ownerWithdrawFeeNumerator : Option Int
  ownerWithdrawFeeDenominator : Option Int
  status : Option Int
  state : Option Int
  resetFlag : Option Int
  systemDecimalsValue : Option Int
  minSize : Option Nat
  volMaxCutRatio : Option Nat
  pnlNumerator : Option Nat
  pnlDenominator : Option Nat
  depth : Option Nat
  coinDeposited : Option Nat
  pcDeposited : Option Nat
  deriving Repr, DecidableEq

/-- The corresponding fields of the persisted record `td`. -/
structure SdkFields where
  swapFeeNumerator : Int
  swapFeeDenominator : Int
  ownerTradeFeeNumerator : Int
  ownerTradeFeeDenominator : Int
  ownerWithdrawFeeNumerator : Int
  ownerWithdrawFeeDenominator : Int
  status : Int
  state : Int
  resetFlag : Int
  systemDecimalsValue : Int
  minSize : Nat
  volMaxCutRatio : Nat
  pnlNumerator : Nat
  pnlDenominator : Nat
  depth : Nat
  coinDeposited : Nat
  pcDeposited : Nat
  deriving Repr, DecidableEq

/-- The try-block of the SDK-v2 compatibility section: every `Number(x) || d`
assignment becomes `jsNumOr`, every `x ? x.toString() : d` assignment on a BN
field becomes `jsObjOr`; `coinDeposited`/`pcDeposited` default to the raw
initial amounts. -/
def fillSdkFields (pd : PoolDecoded) (initBase initQuote : Nat) : SdkFields :=
  { swapFeeNumerator := jsNumOr pd.swapFeeNumerator 25
    swapFeeDenominator := jsNumOr pd.swapFeeDenominator 10000
    ownerTradeFeeNumerator := jsNumOr pd.ownerTradeFeeNumerator 5
    ownerTradeFeeDenominator := jsNumOr pd.ownerTradeFeeDenominator 10000
    ownerWithdrawFeeNumerator := jsNumOr pd.ownerWithdrawFeeNumerator 0
    ownerWithdrawFeeDenominator := jsNumOr pd.ownerWithdrawFeeDenominator 10000
    status := jsNumOr pd.status 6
    state := jsNumOr pd.state 1
    resetFlag := jsNumOr pd.resetFlag 0
    systemDecimalsValue := jsNumOr pd.systemDecimalsValue 6
    minSize := jsObjOr pd.minSize 1
    volMaxCutRatio := jsObjOr pd.volMaxCutRatio 0
    pnlNumerator := jsObjOr pd.pnlNumerator 0
    pnlDenominator := jsObjOr pd.pnlDenominator 1
    depth := jsObjOr pd.depth 0
    coinDeposited := jsObjOr pd.coinDeposited initBase
    pcDeposited := jsObjOr pd.pcDeposited initQuote }

/-- C9: a descriptive numeric field that decodes successfully to 0 is replaced
by its documented default in the persisted record — 25 for `swapFeeNumerator`,
5 for `ownerTradeFeeNumerator`, 6 for `status`, 1 for `state` — because the
`Number(x) || d` substitution tests the decoded value for falsiness, not for
decode failure. -/
theorem falsy_zero_defaults (pd : PoolDecoded) (initBase initQuote : Nat) :
    (pd.swapFeeNumerator = some 0 →
        (fillSdkFields pd initBase initQuote).swapFeeNumerator = 25)
    ∧ (pd.ownerTradeFeeNumerator = some 0 →
        (fillSdkFields pd initBase initQuote).ownerTradeFeeNumerator = 5)
    ∧ (pd.status = some 0 → (fillSdkFields pd initBase initQuote).status = 6)
    ∧ (pd.state = some 0 → (fillSdkFields pd initBase initQuote).state = 1) := by
  refine ⟨fun h => ?_, fun h => ?_, fun h => ?_, fun h => ?_⟩ <;>
    simp [fillSdkFields, jsNumOr, h]

/-- A decoded pool state whose fee, status and state fields all decoded to 0. -/
def zeroPoolDecoded : PoolDecoded :=
  { swapFeeNumerator := some 0, swapFeeDenominator := none
    ownerTradeFeeNumerator := some 0, ownerTradeFeeDenominator := none
    ownerWithdrawFeeNumerator := none, ownerWithdrawFeeDenominator := none
    status := some 0, state := some 0, resetFlag := none
    systemDecimalsValue := none, minSize := none, volMaxCutRatio := none
    pnlNumerator := none, pnlDenominator := none, depth := none
    coinDeposited := none, pcDeposited := none }

/-- C9 (witness): the default substitution evaluated on the concrete all-zero
decode. -/
theorem falsy_zero_defaults_witness :
    (fillSdkFields zeroPoolDecoded 1 2).swapFeeNumerator = 25
    ∧ (fillSdkFields zeroPoolDecoded 1 2).ownerTradeFeeNumerator = 5
    ∧ (fillSdkFields zeroPoolDecoded 1 2).status = 6
    ∧ (fillSdkFields zeroPoolDecoded 1 2).state = 1 :=
  ⟨(falsy_zero_defaults zeroPoolDecoded 1 2).1 rfl,
   (falsy_zero_defaults zeroPoolDecoded 1 2).2.1 rfl,
   (falsy_zero_defaults zeroPoolDecoded 1 2).2.2.1 rfl,
   (falsy_zero_defaults zeroPoolDecoded 1 2).2.2.2 rfl⟩

/- ### PriceWatcher (`sniper.js`) -/

/-- The configuration the `Sniper` constructor copies into the session:
`K` and `V` from the persisted record, the sell target percentage
(`cfg.sellTargetPrice`), and the quote decimals.  JavaScript number arithmetic
is modelled over `ℚ`. -/
structure SniperCfg where
  tokenId : String
  K : ℚ
  V : ℚ
  sellTargetPrice : ℚ
  quoteDecimals : Nat
  deriving Repr, DecidableEq

/-- `this.targetMultiplier = 1 + cfg.sellTargetPrice / 100`. -/
def targetMultiplier (c : SniperCfg) : ℚ := 1 + c.sellTargetPrice / 100

/-- `this.calculatedSell = cfg.V * this.targetMultiplier`. -/
def calculatedSell (c : SniperCfg) : ℚ := c.V * targetMultiplier c

/-- `const quoteHuman = lamports / 10 ** this.quoteDecimals`. -/
def quoteHuman (c : SniperCfg) (lamports : ℚ) : ℚ := lamports / 10 ^ c.quoteDecimals

/-- `const priceNow = Number(this.K) / quoteHuman`. -/
def priceNow (c : SniperCfg) (lamports : ℚ) : ℚ := c.K / quoteHuman c lamports

/-- The two awaited effects the notification handler can perform. -/
inductive HandlerAction where
  | sell
  | unsub
  deriving Repr, DecidableEq

/-- The body of the `onAccountChange` callback in `subscribeToVault`: the
price test `priceNow >= this.calculatedSell` runs synchronously and reads only
the notification's balance and the immutable session constants — there is no
mutable "already triggered" flag consulted or set — and on success the handler
performs `await executeSell()` followed by `await unsubscribe()`. -/
def handlerScript (c : SniperCfg) (lamports : ℚ) : List HandlerAction :=
  if priceNow c lamports ≥ calculatedSell c then [HandlerAction.sell, HandlerAction.unsub]
  else []

/-- The mutable session state the handler's effects touch: how many sell trades
have been issued, and the subscription handle `vaultSubId`. -/
structure SessState where
  sellsIssued : Nat
  vaultSubId : Option Nat
  deriving Repr, DecidableEq

/-- Effect of one awaited step: `executeSell` issues one sell trade;
`unsubscribe` removes the listener iff `vaultSubId` is set (it is a no-op
otherwise, so it is idempotent). -/
def execAction (s : SessState) : HandlerAction → SessState
  | HandlerAction.sell => { s with sellsIssued := s.sellsIssued + 1 }
  | HandlerAction.unsub =>
      if s.vaultSubId.isSome then { s with vaultSubId := none } else s

/-- Executing a sequence of awaited handler steps. -/
def runActions (s : SessState) (acts : List HandlerAction) : SessState :=
  acts.foldl execAction s

/-- A session at its target: `K = 60`, `V = 50`, `sellTargetPrice = 20` %, so
`calculatedSell = 60`; a vault balance of 1 lamport with 0 quote decimals gives
`priceNow = 60`. -/
def demoCfg : SniperCfg :=
  { tokenId := "token1", K := 60, V := 50, sellTargetPrice := 20, quoteDecimals := 0 }

theorem demo_price_ge_target : priceNow demoCfg 1 ≥ calculatedSell demoCfg := by
  norm_num [priceNow, quoteHuman, calculatedSell, targetMultiplier, demoCfg]

theorem handlerScript_demo :
    handlerScript demoCfg 1 = [HandlerAction.sell, HandlerAction.unsub] := by
  rw [handlerScript, if_pos demo_price_ge_target]

/-- C1 (code evaluated at the failing input): two back-to-back notifications at
the target price, both of whose price checks run before the first sell
completes, issue two sell trades.  The handler consults no "already triggered"
guard — its trigger decision depends only on the notification's balance and the
session constants — so both handlers proceed to `executeSell`. -/
theorem two_notifications_two_sells :
    runActions { sellsIssued := 0, vaultSubId := some 1 }
        (handlerScript demoCfg 1 ++ handlerScript demoCfg 1)
      = { sellsIssued := 2, vaultSubId := none } := by
  rw [handlerScript_demo]
  rfl

/-- The notification handler with the sell's outcome made explicit: when the
price test passes, the handler first awaits `executeSell()`; a sell that throws
rejects the handler right there, so the subsequent `await this.unsubscribe()`
never runs and `vaultSubId` keeps its value.  The returned flag is `true` iff
the handler rejected. -/
def handlerNotify (c : SniperCfg) (lamports : ℚ) (sellFails : Bool) (s : SessState) :
    SessState × Bool :=
  if priceNow c lamports ≥ calculatedSell c then
    if sellFails then (s, true)
    else
      let s1 : SessState := { s with sellsIssued := s.sellsIssued + 1 }
      (execAction s1 HandlerAction.unsub, false)
  else (s, false)

/-- C2 (code evaluated at the failing input): the handler awaits the sell
*before* unsubscribing (`handlerScript` is `[sell, unsub]`), and when the sell
trade fails the error propagates with the subscription still active:
`vaultSubId` is left at `some 1`, so the subscription is not torn down. -/
theorem failing_sell_keeps_subscription :
    handlerScript demoCfg 1 = [HandlerAction.sell, HandlerAction.unsub]
    ∧ handlerNotify demoCfg 1 true { sellsIssued := 0, vaultSubId := some 1 }
        = ({ sellsIssued := 0, vaultSubId := some 1 }, true) := by
  refine ⟨handlerScript_demo, ?_⟩
  rw [handlerNotify, if_pos demo_price_ge_target]
  rfl

/- ### Buy phase (`executeBuy`) -/

inductive BuyErr where
  | lpDataMissing
  | tradeFailed
  deriving Repr, DecidableEq

/-- `executeBuy` of `src/sniper.js`: throws when the cached record is absent;
otherwise awaits the swap and sets `this.fullLpData = null` only after the
await succeeds, so a trade failure propagates with the cache still populated.
Returns the outcome together with the final value of `fullLpData`. -/
def executeBuySniper {α : Type} (fullLpData : Option α) (tradeFails : Bool) :
    Except BuyErr Unit × Option α :=
  match fullLpData with
  | none => (Except.error BuyErr.lpDataMissing, none)
  | some r =>
      if tradeFails then (Except.error BuyErr.tradeFailed, some r)
      else (Except.ok (), none)

/-- `executeBuy` of the revised sniper (src/unnamed/part_002): same control
flow, but `this.fullLpData = null` sits in a `finally`, so the cache is
released on both the success and the failure path of the swap. -/
def executeBuyFinally {α : Type} (fullLpData : Option α) (tradeFails : Bool) :
    Except BuyErr Unit × Option α :=
  match fullLpData with
  | none => (Except.error BuyErr.lpDataMissing, none)
  | some _ =>
      if tradeFails then (Except.error BuyErr.tradeFailed, none)
      else (Except.ok (), none)

/-- C4 (code evaluated at the failing input): in `src/sniper.js` a buy whose
trade throws keeps the cached record (`fullLpData` stays `some`), releasing it
only on success, while the `try/finally` variant of part_002 releases it on
both paths. -/
theorem executeBuy_release_divergence :
    executeBuySniper (some "lp-record") true
        = (Except.error BuyErr.tradeFailed, some "lp-record")
    ∧ (executeBuySniper (some "lp-record") false).2 = none
    ∧ (executeBuyFinally (some "lp-record") true).2 = none
    ∧ (executeBuyFinally (some "lp-record") false).2 = none :=
  ⟨rfl, rfl, rfl, rfl⟩

/- ### Trigger condition (C8) -/

/-- C8: the session's target is `V * (1 + sellTargetPrice/100)`, and for a
notification delivering a positive balance the handler reaches the sell if and
only if `priceNow = K / (lamports / 10^quoteDecimals)` is at or above that
target: strictly below never sells, exactly equal does. -/
theorem trigger_iff_target (c : SniperCfg) (lamports : ℚ) (hl : 0 < lamports) :
    calculatedSell c = c.V * (1 + c.sellTargetPrice / 100)
    ∧ (HandlerAction.sell ∈ handlerScript c lamports
        ↔ priceNow c lamports ≥ calculatedSell c)
    ∧ (priceNow c lamports < calculatedSell c → handlerScript c lamports = [])
    ∧ (priceNow c lamports = calculatedSell c
        → HandlerAction.sell ∈ handlerScript c lamports) := by
  refine ⟨rfl, ⟨?_, ?_⟩, fun h => ?_, fun h => ?_⟩
  · intro hmem
    by_contra hlt
    rw [handlerScript, if_neg hlt] at hmem
    simp at hmem
  · intro hge
    rw [handlerScript, if_pos hge]
    simp
  · rw [handlerScript, if_neg (not_le.mpr h)]
  · rw [handlerScript, if_pos h.ge]
    simp

/-- C8 (witness): on the demo session (`V = 50`, 20 % target, so target 60), a
balance implying `priceNow = 60` satisfies all four conjuncts. -/
theorem trigger_iff_target_witness :
    calculatedSell demoCfg = demoCfg.V * (1 + demoCfg.sellTargetPrice / 100)
    ∧ (HandlerAction.sell ∈ handlerScript demoCfg 1
        ↔ priceNow demoCfg 1 ≥ calculatedSell demoCfg)
    ∧ (priceNow demoCfg 1 < calculatedSell demoCfg → handlerScript demoCfg 1 = [])
    ∧ (priceNow demoCfg 1 = calculatedSell demoCfg
        → HandlerAction.sell ∈ handlerScript demoCfg 1) :=
  trigger_iff_target demoCfg 1 (by norm_num)

/- ### Sell amount (`getTokenBalance` / `executeSell`) -/

/-- `getTokenBalance` of `src/sniper.js` over the balances of the owner's token
accounts for the base mint: `if (res.value.length === 0) return 0;` else the
balance of the first account. -/
def getTokenBalance (accountBalances : List Nat) : Nat :=
  match accountBalances with
  | [] => 0
  | b :: _ => b

/-- The persisted record as `executeSell` re-reads it from the store. -/
structure LpDoc where
  baseMint : String
  quoteMint : String
  deriving Repr, DecidableEq

/-- The argument object `executeSell` passes to `swapCreator.swapTokens`. -/
structure SellSwapCall where
  lpData : LpDoc
  amountSpecified : Nat
  swapBaseIn : Bool
  isInputSOL : Bool
  isOutputSOL : Bool
  deriving Repr, DecidableEq

/-- `executeSell` of `src/sniper.js`: fetches the persisted record, then calls
the trade executor with `amountSpecified: await this.getTokenBalance()`,
`swapBaseIn: true` and the WSOL flags — there is no balance check between the
fetch and the executor call. -/
def executeSellCall (lpData : LpDoc) (accountBalances : List Nat) : SellSwapCall :=
  { lpData := lpData
    amountSpecified := getTokenBalance accountBalances
    swapBaseIn := true
    isInputSOL := lpData.baseMint == WSOL_MINT
    isOutputSOL := lpData.quoteMint == WSOL_MINT }

/-- C10: when the owner holds no token account for the base mint,
`getTokenBalance` returns 0 and `executeSell` reaches the trade executor with
`amountSpecified = 0` instead of failing with a missing-balance error. -/
theorem sell_with_zero_balance (lpData : LpDoc) :
    getTokenBalance [] = 0
    ∧ executeSellCall lpData []
        = { lpData := lpData, amountSpecified := 0, swapBaseIn := true,
            isInputSOL := lpData.baseMint == WSOL_MINT,
            isOutputSOL := lpData.quoteMint == WSOL_MINT } :=
  ⟨rfl, rfl⟩

end BotV95
